import Mathlib

/-!
Shallow embedding of the MCP gateway (`src/gateway.ts`, `src/registry.ts`).

The gateway keeps a pool (`connected : Map<string, Connected>`) of lazily
established connections to downstream MCP servers, and exposes three
operations (`discover`, `dispatch`, `close`) plus a periodic idle reaper
(`scheduleGc`).  Machine-level effects (spawning processes, opening
WebSockets, the SDK protocol calls) are modelled by oracles (`World`,
`StdioOutcome`, `WsNet`, `Downstream`) describing how each external call
settles, and by an explicit trace of performed actions (`Act`).  An async
call that never settles is modelled by the outcome `Res.hang`: a JavaScript
`await` on such a promise suspends the handler forever, so the whole
handler's outcome is `Res.hang`.
-/

namespace Gateway

/-- `ServerKind` from `src/registry.ts`: `"stdio" | "ws"`. -/
inductive ServerKind
  | stdio
  | ws
deriving DecidableEq, Repr

/-- `ServerConfig` from `src/registry.ts`.  Millisecond quantities are
modelled as `Int` (JavaScript numbers; the code only ever compares and
subtracts them).  `env` is an association list standing for the
`Record<string, string>`. -/
structure ServerConfig where
  id : String
  kind : ServerKind
  command : Option String := none
  args : Option (List String) := none
  cwd : Option String := none
  env : Option (List (String × String)) := none
  url : Option String := none
  connectTimeoutMs : Option Int := none
  idleTtlMs : Option Int := none
deriving DecidableEq, Repr

/-- The `REGISTRY` constant of `src/registry.ts` (the in-repo hardcoded
variant; the repository also carries a loader variant that reads the same
shape from `registry.config.json`, which is why the pool functions below
are parametrised by a registry list). -/
def REGISTRY : List ServerConfig :=
  [ { id := "llm-memory", kind := .stdio, command := some "node",
      args := some ["/Users/administrator/Development/Claude/llm_memory_mcp/dist/src/index.js"],
      connectTimeoutMs := some 8000, idleTtlMs := some 300000 },
    { id := "code-trm", kind := .stdio, command := some "node",
      args := some ["/Users/administrator/Development/Claude/code_trm_mcp/dist/server.js"],
      connectTimeoutMs := some 8000, idleTtlMs := some 300000 },
    { id := "codex", kind := .stdio, command := some "node",
      args := some ["/Users/administrator/Development/Claude/codex_mcp/dist/index.js"],
      connectTimeoutMs := some 8000, idleTtlMs := some 300000 },
    { id := "code-analysis", kind := .stdio, command := some "node",
      args := some ["/Users/administrator/Development/Claude/code_context/code-analysis-context-mcp/dist/index.js"],
      connectTimeoutMs := some 8000, idleTtlMs := some 300000 } ]

/-- Outcome of awaiting one asynchronous step: it resolves (`ok`), rejects
with an `Error` whose message is the `String` (`err`), or never settles
(`hang`).  Awaiting a promise that never settles suspends the awaiting
code forever, which is how the absence of a timeout becomes observable. -/
inductive Res (α : Type)
  | ok (a : α)
  | err (msg : String)
  | hang
deriving DecidableEq, Repr

/-- Sequencing of awaited steps: a rejection propagates (until a `catch`),
and after a never-settling step nothing further runs. -/
def Res.bind {α β : Type} : Res α → (α → Res β) → Res β
  | .ok a, f => f a
  | .err m, _ => .err m
  | .hang, _ => .hang

def Res.map {α β : Type} (f : α → β) : Res α → Res β
  | .ok a => .ok (f a)
  | .err m => .err m
  | .hang => .hang

/-- JSON values, used for operation arguments, downstream responses and the
content items of gateway results. -/
inductive Json
  | null
  | bool (b : Bool)
  | num (n : Int)
  | str (s : String)
  | arr (items : List Json)
  | obj (fields : List (String × Json))
deriving Repr

/-- Property access `j["k"]` on a JSON value: defined on objects, `none`
otherwise (JavaScript `undefined`). -/
def jLookup (j : Json) (k : String) : Option Json :=
  match j with
  | .obj fields => (fields.find? (fun f => f.1 = k)).map (fun f => f.2)
  | _ => none

mutual

/-- `JSON.stringify` as used in the handlers.  The source pretty-prints with
`JSON.stringify(v, null, 2)`; no specified property depends on the
whitespace or on string escaping, so this renderer elides both. -/
def Json.render : Json → String
  | .null => "null"
  | .bool true => "true"
  | .bool false => "false"
  | .num n => toString n
  | .str s => "\"" ++ s ++ "\""
  | .arr items => "[" ++ Json.renderItems items ++ "]"
  | .obj fields => "\x7b" ++ Json.renderFields fields ++ "\x7d"

def Json.renderItems : List Json → String
  | [] => ""
  | [j] => Json.render j
  | j :: rest => Json.render j ++ "," ++ Json.renderItems rest

def Json.renderFields : List (String × Json) → String
  | [] => ""
  | [(k, v)] => "\"" ++ k ++ "\":" ++ Json.render v
  | (k, v) :: rest => "\"" ++ k ++ "\":" ++ Json.render v ++ "," ++ Json.renderFields rest

end

/-- A `{ type: "text", text: s }` content item, the shape every
gateway-built payload uses. -/
def textItem (s : String) : Json :=
  Json.obj [("type", Json.str "text"), ("text", Json.str s)]

/-- The value returned from the `CallToolRequestSchema` handler: a content
list, plus the `isError` flag.  Success results in the source leave
`isError` undefined, modelled as `false`. -/
structure GatewayResult where
  content : List Json
  isError : Bool := false
deriving Repr

/-- The normalized error result produced by the handler's top-level
`catch` (gateway.ts lines 312-323). -/
def errorResult (msg : String) : GatewayResult :=
  { content := [textItem ("Error: " ++ msg)], isError := true }

/-- Externally visible actions the gateway performs, recorded as a trace:
opening/closing a WebSocket, creating a stdio transport and connecting the
client to it (which spawns the child process inside the SDK), closing a
protocol client, and signalling a child process handle. -/
inductive Act
  | newWebSocket (url : String)
  | closeWebSocket (url : String)
  | stdioConnect (command : String)
  | closeClient (client : Nat)
  | killChild (child : Nat) (signal : String)
deriving DecidableEq, Repr

/-- The `Connected` record (gateway.ts lines 12-19).  A protocol client is
identified by a `Nat` token; downstream behaviour is looked up from the
token via the `World`. -/
structure Connected where
  cfg : ServerConfig
  client : Nat
  lastUsed : Int
  idleTtlMs : Int
  child : Option Nat
deriving DecidableEq, Repr

/-- The module-level `connected` map, keyed by serverId. -/
abbrev Pool := List (String × Connected)

/-- `Map.get`. -/
def mapGet {α : Type} (m : List (String × α)) (k : String) : Option α :=
  match m with
  | [] => none
  | (k', v) :: rest => if k' = k then some v else mapGet rest k

/-- `Map.set`: replaces the entry in place when the key is present,
appends otherwise (JavaScript `Map` preserves insertion order). -/
def mapSet {α : Type} (m : List (String × α)) (k : String) (v : α) : List (String × α) :=
  match m with
  | [] => [(k, v)]
  | (k', v') :: rest => if k' = k then (k, v) :: rest else (k', v') :: mapSet rest k v

/-- `Map.delete`. -/
def mapDelete {α : Type} (m : List (String × α)) (k : String) : List (String × α) :=
  match m with
  | [] => []
  | (k', v') :: rest => if k' = k then mapDelete rest k else (k', v') :: mapDelete rest k

/-- How one attempt of `connectStdio`'s transport creation plus
`client.connect(transport)` settles: connected (yielding a fresh client
token), rejected, or never settles. -/
inductive StdioOutcome
  | ok (client : Nat)
  | fail (msg : String)
  | never
deriving DecidableEq, Repr

/-- Which event settles the WebSocket-connect promise in `connectWs`
(gateway.ts lines 57-67): the `open` event, the `error` event (with the
error's message), or neither before the timeout fires. -/
inductive WsNet
  | opens
  | errors (msg : String)
  | silent
deriving DecidableEq, Repr

/-- Behaviour of one downstream protocol client: how `listTools()`,
`listResources()` and `callTool()` settle.  `listResources := none` models
a client object on which the method does not exist (the source probes with
`conn.client.listResources?.()`).  `listTools` resolves with the `tools`
value of the response and `listResources` with the `resources` value;
`callTool` resolves with the whole response object. -/
structure Downstream where
  listTools : Res Json
  listResources : Option (Res Json)
  callTool : String → Json → Res Json

/-- The oracle bundle: per-serverId adapter outcomes, per-client downstream
behaviour, and whether a given client's `close()` throws (the handlers wrap
every `close()`/`kill()` in `try {} catch {}`, so this can never influence
anything beyond being swallowed). -/
structure World where
  stdio : String → StdioOutcome
  wsNet : String → WsNet
  ds : Nat → Downstream
  closeFails : Nat → Bool

/-- `connectStdio` (gateway.ts lines 23-52): asserts `cfg.command`
(`assert(cfg.command, "command required")` throws synchronously before any
transport is created when the command is absent), creates the
`StdioClientTransport` and awaits `client.connect(transport)` — the SDK
spawns the child process during this step — and on success returns
`{ client, child: null }`: the child handle is ALWAYS null because
`StdioClientTransport` owns the process it spawns. -/
def connectStdio (cfg : ServerConfig) (o : StdioOutcome) :
    List Act × Res (Nat × Option Nat) :=
  match cfg.command with
  | none => ([], .err "command required")
  | some cmd =>
    match o with
    | .ok client => ([.stdioConnect cmd], .ok (client, none))
    | .fail m => ([.stdioConnect cmd], .err m)
    | .never => ([.stdioConnect cmd], .hang)

/-- The connect budget used by `connectWs`'s timeout:
`cfg.connectTimeoutMs ?? 8000` (gateway.ts line 60). -/
def wsConnectBudget (cfg : ServerConfig) : Int :=
  cfg.connectTimeoutMs.getD 8000

/-- `connectWs` (gateway.ts lines 54-72): asserts `cfg.url` (throws
"url required for ws" before any I/O when absent), otherwise constructs
`new WebSocket(url)` — network I/O — and awaits whichever of the `open`
event, the `error` event, or the `wsConnectBudget` timeout settles the
promise first.  If the socket opens, the function then throws
"WebSocket transport not yet implemented"; in no case is the socket closed
and in no case is a client produced. -/
def connectWs (cfg : ServerConfig) (net : WsNet) : List Act × Res Nat :=
  match cfg.url with
  | none => ([], .err "url required for ws")
  | some u =>
    match net with
    | .opens => ([.newWebSocket u], .err "WebSocket transport not yet implemented")
    | .errors m => ([.newWebSocket u], .err m)
    | .silent => ([.newWebSocket u], .err "WS connect timeout")

/-- `findCfg` (gateway.ts lines 79-83), over an explicit registry list. -/
def findCfg (reg : List ServerConfig) (serverId : String) : Except String ServerConfig :=
  match reg.find? (fun s => s.id = serverId) with
  | some cfg => .ok cfg
  | none => .error ("Unknown serverId: " ++ serverId)

/-- State of one `ensureConnection` call at its (single, pool-relevant)
suspension point: either it finished without awaiting the adapter (cache
hit, or a synchronous throw from `findCfg`), or it is suspended on
`await connectStdio/connectWs` for configuration `cfg`. -/
inductive EnsureCont
  | finished (r : Res Connected)
  | awaitConnect (cfg : ServerConfig)

/-- The synchronous prefix of `ensureConnection` (gateway.ts lines 85-103):
`Date.now()`, the pool lookup (hit: refresh `lastUsed` in place and return
the existing record), `findCfg`, and — on a miss — initiation of the
transport-adapter connect, at which point the call suspends.  No pool
insertion happens before the suspension point. -/
def ensureStep1 (reg : List ServerConfig) (pool : Pool) (serverId : String) (now : Int) :
    Pool × EnsureCont :=
  match mapGet pool serverId with
  | some existing =>
    let updated := { existing with lastUsed := now }
    (mapSet pool serverId updated, .finished (.ok updated))
  | none =>
    match findCfg reg serverId with
    | .error e => (pool, .finished (.err e))
    | .ok cfg => (pool, .awaitConnect cfg)

/-- The adapter call `ensureConnection` awaits (gateway.ts lines 97-103):
`connectWs` when `cfg.kind === "ws"` (in which case the local `child`
variable keeps its initial `null`), else `connectStdio`. -/
def adapterConnect (w : World) (serverId : String) (cfg : ServerConfig) :
    List Act × Res (Nat × Option Nat) :=
  match cfg.kind with
  | .ws =>
    let r := connectWs cfg (w.wsNet serverId)
    (r.1, r.2.map (fun client => (client, none)))
  | .stdio => connectStdio cfg (w.stdio serverId)

/-- The resumption of `ensureConnection` after the adapter settles
(gateway.ts lines 105-114): a rejection propagates with the pool untouched
(there is no `try`/`catch` and no cleanup in this function); on success the
`Connected` record is built (`idleTtlMs = cfg.idleTtlMs ?? 5 * 60_000`)
and inserted. -/
def ensureStep2 (pool : Pool) (serverId : String) (cfg : ServerConfig) (now : Int)
    (r : Res (Nat × Option Nat)) : Pool × Res Connected :=
  match r with
  | .err e => (pool, .err e)
  | .hang => (pool, .hang)
  | .ok (client, child) =>
    let conn : Connected :=
      { cfg := cfg, client := client, lastUsed := now,
        idleTtlMs := cfg.idleTtlMs.getD 300000, child := child }
    (mapSet pool serverId conn, .ok conn)

/-- `ensureConnection` (gateway.ts lines 85-115) run without interleaving:
the synchronous prefix, then the awaited adapter call, then the resumption.
Returns the performed actions, the resulting pool and the outcome. -/
def ensureConnection (reg : List ServerConfig) (w : World) (pool : Pool)
    (serverId : String) (now : Int) : List Act × Pool × Res Connected :=
  match ensureStep1 reg pool serverId now with
  | (p, .finished r) => ([], p, r)
  | (p, .awaitConnect cfg) =>
    let ar := adapterConnect w serverId cfg
    let s2 := ensureStep2 p serverId cfg now ar.2
    (ar.1, s2.1, s2.2)

/-- The interval of `scheduleGc`'s timer: `setInterval(..., 30_000)`
(gateway.ts line 132). -/
def gcIntervalMs : Int := 30000

/-- The teardown calls issued when evicting a pool entry, identical in the
reaper (gateway.ts lines 123-128) and in the `close` handler (lines
298-303): `c.client.close()` then `c.child?.kill("SIGTERM")` — the kill is
only issued when a child handle is present. -/
def evictActs (c : Connected) : List Act :=
  Act.closeClient c.client ::
    (match c.child with
     | some ch => [Act.killChild ch "SIGTERM"]
     | none => [])

/-- One tick of the `scheduleGc` interval callback (gateway.ts lines
118-131): scan the pool in insertion order; every entry with
`now - c.lastUsed > c.idleTtlMs` is torn down (each teardown call sits in
its own `try {} catch {}`, so a failing `close()` — `w.closeFails` — is
swallowed and eviction proceeds identically) and deleted; every other
entry is left untouched. -/
def gcTick (w : World) (now : Int) (pool : Pool) : List Act × Pool :=
  match pool with
  | [] => ([], [])
  | (id, c) :: rest =>
    let r := gcTick w now rest
    if now - c.lastUsed > c.idleTtlMs then
      if w.closeFails c.client then (evictActs c ++ r.1, r.2)
      else (evictActs c ++ r.1, r.2)
    else (r.1, (id, c) :: r.2)

/-- `discoverInputSchema.parse` (gateway.ts lines 135-137): requires a
string field `serverId`; a validation failure is a thrown error (the exact
zod message is abbreviated, no property depends on its text). -/
def parseDiscoverInput (args : Json) : Except String String :=
  match jLookup args "serverId" with
  | some (.str s) => .ok s
  | _ => .error "invalid discover arguments: serverId (string) required"

/-- `dispatchInputSchema.parse` (gateway.ts lines 139-143): requires string
fields `serverId` and `tool`, and an optional object field `args`. -/
def parseDispatchInput (args : Json) : Except String (String × String × Option Json) :=
  match jLookup args "serverId", jLookup args "tool" with
  | some (.str sid), some (.str tool) =>
    match jLookup args "args" with
    | none => .ok (sid, tool, none)
    | some (Json.obj fields) => .ok (sid, tool, some (Json.obj fields))
    | some _ => .error "invalid dispatch arguments: args must be an object"
  | _, _ => .error "invalid dispatch arguments: serverId and tool (strings) required"

/-- `closeInputSchema.parse` (gateway.ts lines 145-147). -/
def parseCloseInput (args : Json) : Except String String :=
  match jLookup args "serverId" with
  | some (.str s) => .ok s
  | _ => .error "invalid close arguments: serverId (string) required"

/-- The successful `discover` payload (gateway.ts lines 258-273):
`JSON.stringify({ serverId, tools, resources }, null, 2)` wrapped in a
single text content item. -/
def discoverResult (serverId : String) (tools resources : Json) : GatewayResult :=
  { content := [textItem (Json.render (Json.obj
      [("serverId", Json.str serverId), ("tools", tools), ("resources", resources)]))] }

/-- The benign result `close` returns when the identity has no pool entry
(gateway.ts lines 290-296). -/
def notConnectedResult (serverId : String) : GatewayResult :=
  { content := [textItem ("serverId " ++ serverId ++ " not connected")] }

/-- The confirmation result of a successful `close` (gateway.ts lines
306-308). -/
def closedResult (serverId : String) : GatewayResult :=
  { content := [textItem ("serverId " ++ serverId ++ " closed")] }

/-- The `discover` branch of the call-tool handler (gateway.ts lines
224-273): parse, `ensureConnection`, `listTools()` (a rejection is
re-thrown and so propagates), `listResources?.()` (an absent method or a
rejection degrades to `resources: []`), then the stringified payload. -/
def discoverOp (reg : List ServerConfig) (w : World) (now : Int) (pool : Pool)
    (args : Json) : List Act × Pool × Res GatewayResult :=
  match parseDiscoverInput args with
  | .error e => ([], pool, .err e)
  | .ok serverId =>
    let ec := ensureConnection reg w pool serverId now
    match ec.2.2 with
    | .err e => (ec.1, ec.2.1, .err e)
    | .hang => (ec.1, ec.2.1, .hang)
    | .ok conn =>
      match (w.ds conn.client).listTools with
      | .err e => (ec.1, ec.2.1, .err e)
      | .hang => (ec.1, ec.2.1, .hang)
      | .ok tools =>
        match (w.ds conn.client).listResources with
        | some Res.hang => (ec.1, ec.2.1, .hang)
        | some (Res.ok resources) =>
          (ec.1, ec.2.1, .ok (discoverResult serverId tools resources))
        | some (Res.err _) =>
          (ec.1, ec.2.1, .ok (discoverResult serverId tools (Json.arr [])))
        | none =>
          (ec.1, ec.2.1, .ok (discoverResult serverId tools (Json.arr [])))

/-- The `dispatch` branch (gateway.ts lines 274-285): parse,
`ensureConnection`, then `await conn.client.callTool(...)` with the `args`
default `{}` — the await is NOT wrapped in any timeout, so a downstream
call that never settles suspends the handler forever (`Res.hang`).  A
response whose `content` is an array is passed through verbatim; any other
response is stringified into a single text item. -/
def dispatchOp (reg : List ServerConfig) (w : World) (now : Int) (pool : Pool)
    (args : Json) : List Act × Pool × Res GatewayResult :=
  match parseDispatchInput args with
  | .error e => ([], pool, .err e)
  | .ok (serverId, tool, toolArgs) =>
    let ec := ensureConnection reg w pool serverId now
    match ec.2.2 with
    | .err e => (ec.1, ec.2.1, .err e)
    | .hang => (ec.1, ec.2.1, .hang)
    | .ok conn =>
      match (w.ds conn.client).callTool tool (toolArgs.getD (Json.obj [])) with
      | .err e => (ec.1, ec.2.1, .err e)
      | .hang => (ec.1, ec.2.1, .hang)
      | .ok result =>
        match jLookup result "content" with
        | some (Json.arr items) => (ec.1, ec.2.1, .ok { content := items })
        | _ => (ec.1, ec.2.1, .ok { content := [textItem (Json.render result)] })

/-- The `close` branch (gateway.ts lines 286-308): parse, direct pool
lookup (no `ensureConnection`); when absent, the benign "not connected"
result; when present, `close()`/`kill()` each inside `try {} catch {}`
(a failing close — `w.closeFails` — is swallowed, both branches behave
identically), delete from the pool, and confirm. -/
def closeOp (w : World) (pool : Pool) (args : Json) :
    List Act × Pool × Res GatewayResult :=
  match parseCloseInput args with
  | .error e => ([], pool, .err e)
  | .ok serverId =>
    match mapGet pool serverId with
    | none => ([], pool, .ok (notConnectedResult serverId))
    | some c =>
      if w.closeFails c.client then
        (evictActs c, mapDelete pool serverId, .ok (closedResult serverId))
      else
        (evictActs c, mapDelete pool serverId, .ok (closedResult serverId))

/-- The body of the `try` block of the call-tool handler (gateway.ts lines
223-311): dispatch on the tool name, with an unknown name thrown as
`Unknown tool: ...`. -/
def handleInner (reg : List ServerConfig) (w : World) (now : Int) (pool : Pool)
    (name : String) (args : Json) : List Act × Pool × Res GatewayResult :=
  if name = "discover" then discoverOp reg w now pool args
  else if name = "dispatch" then dispatchOp reg w now pool args
  else if name = "close" then closeOp w pool args
  else ([], pool, .err ("Unknown tool: " ++ name))

/-- The handler's top-level `catch` (gateway.ts lines 312-323), on the
outcome alone: any thrown error is converted to the normalized
`errorResult`; a handler that is suspended forever stays suspended (there
is nothing to catch). -/
def normalizeRes : Res GatewayResult → Res GatewayResult
  | .ok r => .ok r
  | .err e => .ok (errorResult e)
  | .hang => .hang

/-- The top-level `catch` applied to a handler run (trace and pool effects
already performed are kept). -/
def normalizeOutcome (x : List Act × Pool × Res GatewayResult) :
    List Act × Pool × Res GatewayResult :=
  (x.1, x.2.1, normalizeRes x.2.2)

/-- One full `CallToolRequestSchema` handler invocation
(gateway.ts lines 220-324). -/
def handleCallTool (reg : List ServerConfig) (w : World) (now : Int) (pool : Pool)
    (name : String) (args : Json) : List Act × Pool × Res GatewayResult :=
  normalizeOutcome (handleInner reg w now pool name args)

/-- Two concurrent `ensureConnection` calls for the same identity on a
shared pool, under the runtime's cooperative scheduling (spec section 5):
each call runs its synchronous prefix atomically and suspends at
`await connect...`; callers resume when their adapter call settles.  This
function executes the schedule in which both callers run their prefix
before either adapter call settles — caller A's prefix, caller B's prefix,
A's resumption with adapter outcome `r1`, B's resumption with outcome `r2`
— starting from the empty pool.  The final `Nat` counts how many adapter
connect calls were initiated (one per caller whose prefix reached
`awaitConnect`).  Returns (A's outcome, B's outcome, final pool, connect
attempts). -/
def raceRun (reg : List ServerConfig) (serverId : String) (now : Int)
    (r1 r2 : Res (Nat × Option Nat)) :
    Res Connected × Res Connected × Pool × Nat :=
  let s1 := ensureStep1 reg [] serverId now
  let s2 := ensureStep1 reg s1.1 serverId now
  match s1.2, s2.2 with
  | .awaitConnect cfg1, .awaitConnect cfg2 =>
    let a := ensureStep2 s2.1 serverId cfg1 now r1
    let b := ensureStep2 a.1 serverId cfg2 now r2
    (a.2, b.2, b.1, 2)
  | .awaitConnect cfg1, .finished rb =>
    let a := ensureStep2 s2.1 serverId cfg1 now r1
    (a.2, rb, a.1, 1)
  | .finished ra, .awaitConnect cfg2 =>
    let b := ensureStep2 s2.1 serverId cfg2 now r2
    (ra, b.2, b.1, 1)
  | .finished ra, .finished rb => (ra, rb, s2.1, 0)

/-- Every pool entry's child handle is absent (no transport in this source
ever yields one: `connectStdio` hardcodes `child: null` and `connectWs`
never succeeds). -/
def allChildNone (pool : Pool) : Prop :=
  ∀ id c, (id, c) ∈ pool → c.child = none

/-- A downstream behaviour for contexts where no protocol call is
exercised. -/
def dsInert : Downstream :=
  { listTools := .err "not exercised",
    listResources := none,
    callTool := fun _ _ => .err "not exercised" }

/-- A world in which stdio connects succeed (client token 1) and no
downstream or teardown call misbehaves. -/
def wPlain : World :=
  { stdio := fun _ => .ok 1,
    wsNet := fun _ => .opens,
    ds := fun _ => dsInert,
    closeFails := fun _ => false }

/-- A world whose downstream `callTool` never settles (a downstream
capability that never responds), over an otherwise healthy stdio
connection. -/
def wCallHangs : World :=
  { stdio := fun _ => .ok 1,
    wsNet := fun _ => .opens,
    ds := fun _ =>
      { listTools := .ok (Json.arr []),
        listResources := none,
        callTool := fun _ _ => .hang },
    closeFails := fun _ => false }

/-- A world whose stdio `client.connect` never settles (a downstream
process that starts but never completes the protocol handshake). -/
def wConnectHangs : World :=
  { stdio := fun _ => .never,
    wsNet := fun _ => .opens,
    ds := fun _ => dsInert,
    closeFails := fun _ => false }

/-- A world whose stdio connect rejects (e.g. the spawned process exits
immediately). -/
def wConnectFails : World :=
  { stdio := fun _ => .fail "spawn failed",
    wsNet := fun _ => .opens,
    ds := fun _ => dsInert,
    closeFails := fun _ => false }

/-- A world for the discover theorems: the single established client
(token 1) lists one tool and rejects resource listing. -/
def wDiscover : World :=
  { stdio := fun _ => .ok 1,
    wsNet := fun _ => .opens,
    ds := fun _ =>
      { listTools := .ok (Json.arr [Json.obj [("name", Json.str "ping")]]),
        listResources := some (.err "Method not found"),
        callTool := fun _ _ => .err "not exercised" },
    closeFails := fun _ => false }

/-- A connection-parameter record with the unsupported (`ws`) transport
kind and a configured endpoint. -/
def wsExampleCfg : ServerConfig :=
  { id := "remote", kind := .ws, url := some "wss://example.invalid/mcp" }

/-- A registry containing only the `ws`-kind record above. -/
def regWs : List ServerConfig := [wsExampleCfg]

/-- The `llm-memory` entry of `REGISTRY` (its first element). -/
def llmMemoryCfg : ServerConfig :=
  { id := "llm-memory", kind := .stdio, command := some "node",
    args := some ["/Users/administrator/Development/Claude/llm_memory_mcp/dist/src/index.js"],
    connectTimeoutMs := some 8000, idleTtlMs := some 300000 }

/-- The pooled connection the first racing caller of `raceRun` ends up
holding (client token 1). -/
def connRaceA : Connected :=
  { cfg := llmMemoryCfg, client := 1, lastUsed := 100, idleTtlMs := 300000, child := none }

/-- The pooled connection the second racing caller ends up holding
(client token 2). -/
def connRaceB : Connected :=
  { cfg := llmMemoryCfg, client := 2, lastUsed := 100, idleTtlMs := 300000, child := none }

/-- The arguments object `{ serverId: sid }`. -/
def serverIdArgs (sid : String) : Json :=
  Json.obj [("serverId", Json.str sid)]

/-- The arguments object `{ serverId: sid, tool: tool }`. -/
def dispatchArgs (sid tool : String) : Json :=
  Json.obj [("serverId", Json.str sid), ("tool", Json.str tool)]

/-- A pool entry used by the reaper and eviction witnesses. -/
def connStale : Connected :=
  { cfg := llmMemoryCfg, client := 7, lastUsed := 0, idleTtlMs := 300000, child := none }

/-- A fresh (recently used) pool entry. -/
def connFresh : Connected :=
  { cfg := llmMemoryCfg, client := 8, lastUsed := 400000, idleTtlMs := 300000, child := none }

/-- Classifies the actions that release a previously acquired resource
(closing a socket or client, signalling a child process). -/
def Act.isTeardown : Act → Bool
  | .closeWebSocket _ => true
  | .closeClient _ => true
  | .killChild _ _ => true
  | _ => false

/-- A trace that releases nothing. -/
def noTeardown (tr : List Act) : Bool :=
  tr.all (fun a => ! a.isTeardown)

/-- The pooled connection established by `wDiscover` for `llm-memory`
at time 0. -/
def connDiscover : Connected :=
  { cfg := llmMemoryCfg, client := 1, lastUsed := 0, idleTtlMs := 300000, child := none }

/-- The tools value `wDiscover`'s downstream reports. -/
def pingTools : Json :=
  Json.arr [Json.obj [("name", Json.str "ping")]]

/-! ## General lemmas about the embedding -/

theorem mapGet_mapDelete {α : Type} (m : List (String × α)) (k : String) :
    mapGet (mapDelete m k) k = none := by
  induction m with
  | nil => rfl
  | cons hd tl ih =>
    obtain ⟨k', v'⟩ := hd
    by_cases h : k' = k
    · simpa [mapDelete, h] using ih
    · simpa [mapDelete, mapGet, h] using ih

theorem mapGet_none_of_not_mem_keys {α : Type} (m : List (String × α)) (k : String)
    (h : k ∉ m.map Prod.fst) : mapGet m k = none := by
  induction m with
  | nil => rfl
  | cons hd tl ih =>
    obtain ⟨k', v'⟩ := hd
    simp only [List.map_cons, List.mem_cons] at h
    push_neg at h
    show (if k' = k then some v' else mapGet tl k) = none
    rw [if_neg (fun hh => h.1 hh.symm)]
    exact ih h.2

theorem mapGet_some_mem {α : Type} (m : List (String × α)) (k : String) (v : α)
    (h : mapGet m k = some v) : (k, v) ∈ m := by
  induction m with
  | nil => simp [mapGet] at h
  | cons hd tl ih =>
    obtain ⟨k', v'⟩ := hd
    replace h : (if k' = k then some v' else mapGet tl k) = some v := h
    by_cases hk : k' = k
    · subst hk
      rw [if_pos rfl, Option.some.injEq] at h
      subst h
      exact List.mem_cons_self _ _
    · rw [if_neg hk] at h
      exact List.mem_cons_of_mem _ (ih h)

theorem allChildNone_mapSet (pool : Pool) (k : String) (v : Connected)
    (hp : allChildNone pool) (hv : v.child = none) :
    allChildNone (mapSet pool k v) := by
  induction pool with
  | nil =>
    intro id c hmem
    simp only [mapSet, List.mem_singleton] at hmem
    obtain ⟨rfl, rfl⟩ := Prod.mk.injEq .. ▸ hmem
    exact hv
  | cons hd tl ih =>
    obtain ⟨k', v'⟩ := hd
    intro id c hmem
    by_cases hk : k' = k
    · simp only [mapSet, if_pos hk, List.mem_cons] at hmem
      rcases hmem with h | h
      · obtain ⟨rfl, rfl⟩ := Prod.mk.injEq .. ▸ h
        exact hv
      · exact hp id c (List.mem_cons_of_mem _ h)
    · simp only [mapSet, if_neg hk, List.mem_cons] at hmem
      rcases hmem with h | h
      · obtain ⟨rfl, rfl⟩ := Prod.mk.injEq .. ▸ h
        exact hp id c (List.mem_cons_self _ _)
      · exact ih (fun i cc hm => hp i cc (List.mem_cons_of_mem _ hm)) id c h

theorem ifSameBool {α : Type} (b : Bool) (x : α) : (if b then x else x) = x := by
  cases b <;> rfl

theorem parseDiscover_serverIdArgs (sid : String) :
    parseDiscoverInput (serverIdArgs sid) = Except.ok sid := rfl

theorem parseClose_serverIdArgs (sid : String) :
    parseCloseInput (serverIdArgs sid) = Except.ok sid := rfl

theorem closeOp_absent (w : World) (pool : Pool) (sid : String)
    (h : mapGet pool sid = none) :
    closeOp w pool (serverIdArgs sid) = ([], pool, Res.ok (notConnectedResult sid)) := by
  simp only [closeOp, parseClose_serverIdArgs, h]

theorem closeOp_present (w : World) (pool : Pool) (sid : String) (c : Connected)
    (h : mapGet pool sid = some c) :
    closeOp w pool (serverIdArgs sid)
      = (evictActs c, mapDelete pool sid, Res.ok (closedResult sid)) := by
  simp only [closeOp, parseClose_serverIdArgs, h]
  exact ifSameBool ..

theorem gcTick_cons (w : World) (now : Int) (k : String) (c : Connected) (tl : Pool) :
    gcTick w now ((k, c) :: tl)
      = if now - c.lastUsed > c.idleTtlMs
        then (evictActs c ++ (gcTick w now tl).1, (gcTick w now tl).2)
        else ((gcTick w now tl).1, (k, c) :: (gcTick w now tl).2) := by
  simp only [gcTick]
  by_cases hc : now - c.lastUsed > c.idleTtlMs
  · rw [if_pos hc, if_pos hc, ifSameBool]
  · rw [if_neg hc, if_neg hc]

theorem gcTick_mapGet_none (w : World) (now : Int) (pool : Pool) (id : String)
    (h : mapGet pool id = none) : mapGet (gcTick w now pool).2 id = none := by
  induction pool with
  | nil => rfl
  | cons hd tl ih =>
    obtain ⟨k, c⟩ := hd
    replace h : (if k = id then some c else mapGet tl id) = none := h
    by_cases hk : k = id
    · rw [if_pos hk] at h
      exact Option.noConfusion h
    · rw [if_neg hk] at h
      rw [gcTick_cons]
      by_cases hcond : now - c.lastUsed > c.idleTtlMs
      · rw [if_pos hcond]
        exact ih h
      · rw [if_neg hcond]
        show (if k = id then some c else mapGet (gcTick w now tl).2 id) = none
        rw [if_neg hk]
        exact ih h

theorem connectStdio_child_none (cfg : ServerConfig) (o : StdioOutcome)
    (client : Nat) (child : Option Nat)
    (h : (connectStdio cfg o).2 = Res.ok (client, child)) : child = none := by
  cases hcmd : cfg.command <;> cases o <;> simp [connectStdio, hcmd] at h
  exact h.2.symm

theorem adapterConnect_child_none (w : World) (sid : String) (cfg : ServerConfig)
    (cl : Nat) (ch : Option Nat)
    (h : (adapterConnect w sid cfg).2 = Res.ok (cl, ch)) : ch = none := by
  cases hk : cfg.kind with
  | ws =>
    simp only [adapterConnect, hk] at h
    cases hcw : (connectWs cfg (w.wsNet sid)).2 <;> simp [Res.map, hcw] at h
    exact h.2.symm
  | stdio =>
    simp only [adapterConnect, hk] at h
    exact connectStdio_child_none cfg (w.stdio sid) cl ch h

theorem ensureStep1_allChildNone (reg : List ServerConfig) (pool : Pool)
    (sid : String) (now : Int) (hp : allChildNone pool) :
    allChildNone (ensureStep1 reg pool sid now).1 := by
  cases hg : mapGet pool sid with
  | none =>
    cases hf : findCfg reg sid <;> simp only [ensureStep1, hg, hf] <;> exact hp
  | some existing =>
    simp only [ensureStep1, hg]
    exact allChildNone_mapSet pool sid _ hp
      (hp sid existing (mapGet_some_mem pool sid existing hg))

theorem ensureStep2_allChildNone (pool : Pool) (sid : String) (cfg : ServerConfig)
    (now : Int) (r : Res (Nat × Option Nat)) (hp : allChildNone pool)
    (hr : ∀ cl ch, r = Res.ok (cl, ch) → ch = none) :
    allChildNone (ensureStep2 pool sid cfg now r).1 := by
  cases r with
  | err e => exact hp
  | hang => exact hp
  | ok a =>
    obtain ⟨cl, ch⟩ := a
    have hch : ch = none := hr cl ch rfl
    subst hch
    simp only [ensureStep2]
    exact allChildNone_mapSet pool sid _ hp rfl

theorem ensureConnection_allChildNone (reg : List ServerConfig) (w : World)
    (pool : Pool) (sid : String) (now : Int) (hp : allChildNone pool) :
    allChildNone (ensureConnection reg w pool sid now).2.1 := by
  have hbase := ensureStep1_allChildNone reg pool sid now hp
  cases hs : ensureStep1 reg pool sid now with
  | mk p k =>
    rw [hs] at hbase
    cases k with
    | finished r =>
      simp only [ensureConnection, hs]
      exact hbase
    | awaitConnect cfg =>
      simp only [ensureConnection, hs]
      exact ensureStep2_allChildNone p sid cfg now _ hbase
        (fun cl ch hh => adapterConnect_child_none w sid cfg cl ch hh)

theorem evictActs_childNone (c : Connected) (h : c.child = none) :
    evictActs c = [Act.closeClient c.client] := by
  simp [evictActs, h]

theorem gcTick_no_kill (w : World) (now : Int) (pool : Pool)
    (hp : allChildNone pool) (ch : Nat) (sig : String) :
    Act.killChild ch sig ∉ (gcTick w now pool).1 := by
  induction pool with
  | nil => simp [gcTick]
  | cons hd tl ih =>
    obtain ⟨k, c⟩ := hd
    have hc : c.child = none := hp k c (List.mem_cons_self _ _)
    have htl : allChildNone tl := fun i cc hm => hp i cc (List.mem_cons_of_mem _ hm)
    rw [gcTick_cons]
    by_cases hcond : now - c.lastUsed > c.idleTtlMs
    · rw [if_pos hcond]
      intro hmem
      rcases List.mem_append.mp hmem with hin | hin
      · rw [evictActs_childNone c hc] at hin
        simp at hin
      · exact ih htl hin
    · rw [if_neg hcond]
      exact ih htl

/-! ## Claim theorems -/

/-- Claim C1: the claim states that concurrent first-access
`discover`/`dispatch` calls for one identity make exactly one connect
attempt and share one pooled connection.  The code has no per-identity
establishment lock: under the schedule in which two callers both run the
synchronous prefix of `ensureConnection` before either adapter call
settles, two connect attempts are initiated, the callers receive two
distinct `Connected` records, and the second insertion overwrites the
first in the pool. -/
theorem C1_establishment_race_two_attempts :
    raceRun REGISTRY "llm-memory" 100 (Res.ok (1, none)) (Res.ok (2, none))
      = (Res.ok connRaceA, Res.ok connRaceB, [("llm-memory", connRaceB)], 2)
    ∧ decide (connRaceA = connRaceB) = false := by
  decide

/-- Claim C2: the claim states that `dispatch` issues the downstream
invocation under a 120000 ms bound and returns a distinct timed-out error
when the capability never responds.  In this source the `dispatch` branch
awaits `conn.client.callTool(...)` with no timeout wrapper at all, so when
the downstream call never settles the whole handler is suspended forever
(`Res.hang`) — no timeout error of any kind is produced at any time. -/
theorem C2_dispatch_has_no_timeout :
    (handleCallTool REGISTRY wCallHangs 0 [] "dispatch"
        (dispatchArgs "llm-memory" "slow-tool")).2.2 = Res.hang := rfl

/-- Claim C4 counterexample: the claim states that establishment for the
unsupported (`ws`) kind fails immediately with an "unimplemented" error
and performs no I/O before failing.  At a concrete `ws` record whose
socket connect errors, `connectWs` first performs I/O (it constructs
`new WebSocket(url)`, visible in the trace) and then fails with the
underlying connect error, not the unimplemented error. -/
theorem C4_ws_io_before_failure_cex :
    connectWs wsExampleCfg (WsNet.errors "connection refused")
      = ([Act.newWebSocket "wss://example.invalid/mcp"], Res.err "connection refused")
    ∧ decide ((connectWs wsExampleCfg (WsNet.errors "connection refused")).1 = []) = false
    ∧ decide ((connectWs wsExampleCfg (WsNet.errors "connection refused")).2
        = Res.err "WebSocket transport not yet implemented") = false := by
  decide

/-- Claim C4 (amended): for every `ws`-kind connection-parameter record,
establishment always fails — it never yields a client.  With a missing URL
it fails before any I/O; otherwise it first opens a WebSocket to the
configured endpoint (network I/O), and only when the socket actually opens
is the failure the "not yet implemented" error (a socket error or the
connect timeout is surfaced instead). -/
theorem C4_ws_always_fails (cfg : ServerConfig) (net : WsNet) :
    (∀ u, cfg.url = some u →
       (connectWs cfg net).1 = [Act.newWebSocket u]
       ∧ (net = WsNet.opens →
          (connectWs cfg net).2 = Res.err "WebSocket transport not yet implemented"))
    ∧ (cfg.url = none → connectWs cfg net = ([], Res.err "url required for ws"))
    ∧ (∀ c, (connectWs cfg net).2 ≠ Res.ok c) := by
  refine ⟨?_, ?_, ?_⟩
  · intro u hu
    cases net <;> simp [connectWs, hu]
  · intro hu
    simp [connectWs, hu]
  · intro c h
    cases hu : cfg.url with
    | none => rw [connectWs, hu] at h; exact Res.noConfusion h
    | some u => rw [connectWs, hu] at h; cases net <;> exact Res.noConfusion h

/-- Claim C4 witness: the amended theorem applied to the concrete `ws`
record whose socket opens. -/
theorem C4_ws_always_fails_witness :
    (connectWs wsExampleCfg WsNet.opens).1
      = [Act.newWebSocket "wss://example.invalid/mcp"]
    ∧ (connectWs wsExampleCfg WsNet.opens).2
      = Res.err "WebSocket transport not yet implemented" :=
  ⟨((C4_ws_always_fails wsExampleCfg WsNet.opens).1 "wss://example.invalid/mcp" rfl).1,
   ((C4_ws_always_fails wsExampleCfg WsNet.opens).1 "wss://example.invalid/mcp" rfl).2 rfl⟩

/-- Claim C5: the claim states that the connect phase is bounded by the
identity's connect timeout (default 8000 ms), with termination of the
partially-started process on expiry.  In this source only the dead `ws`
path has such a timeout (`wsConnectBudget`); `connectStdio` — the only
working transport — awaits `client.connect(transport)` with no bound, so
even for `llm-memory`, whose registry entry explicitly configures
`connectTimeoutMs = 8000`, a connect that never completes suspends
`ensureConnection` forever instead of failing at 8000 ms. -/
theorem C5_stdio_connect_unbounded :
    findCfg REGISTRY "llm-memory" = Except.ok llmMemoryCfg
    ∧ llmMemoryCfg.connectTimeoutMs = some 8000
    ∧ ensureConnection REGISTRY wConnectHangs [] "llm-memory" 0
        = ([Act.stdioConnect "node"], [], Res.hang)
    ∧ wsConnectBudget { id := "x", kind := ServerKind.ws } = 8000 :=
  ⟨rfl, rfl, by decide, rfl⟩

/-- Claim C6: the claim states that on establishment failure
`ensureConnection` leaves the pool unchanged, terminates any
partially-started resource, and propagates the original failure.  The
pool is indeed unchanged and the failure propagates (there is no catch in
`ensureConnection`), but precisely because there is no catch there is no
cleanup either: the trace of a failing establishment contains no teardown
action at all — for the `ws` record the WebSocket that was opened is left
open, and for a failing stdio connect nothing is terminated. -/
theorem C6_failure_cleanup_missing :
    ensureConnection regWs wPlain [] "remote" 0
      = ([Act.newWebSocket "wss://example.invalid/mcp"], [],
         Res.err "WebSocket transport not yet implemented")
    ∧ noTeardown (ensureConnection regWs wPlain [] "remote" 0).1 = true
    ∧ ensureConnection REGISTRY wConnectFails [] "llm-memory" 0
        = ([Act.stdioConnect "node"], [], Res.err "spawn failed")
    ∧ noTeardown (ensureConnection REGISTRY wConnectFails [] "llm-memory" 0).1 = true := by
  decide

/-- Claim C3: every failure thrown inside any operation branch of the
call-tool handler (input validation, unknown identity, connect failure,
downstream protocol failure, unknown tool name, ...) is caught by the
handler's top-level `catch` and converted into the normalized error result
— a text content payload whose message carries the error and whose
`isError` flag is set — and the handler's outcome is never an uncaught
rejection, for every request and every oracle. -/
theorem C3_failures_normalized (reg : List ServerConfig) (w : World) (now : Int)
    (pool : Pool) (name : String) (args : Json) :
    (∀ e, (handleCallTool reg w now pool name args).2.2 ≠ Res.err e)
    ∧ ∀ e, (handleInner reg w now pool name args).2.2 = Res.err e →
        (handleCallTool reg w now pool name args).2.2 = Res.ok (errorResult e) := by
  have heq : (handleCallTool reg w now pool name args).2.2
      = normalizeRes (handleInner reg w now pool name args).2.2 := rfl
  constructor
  · intro e h
    rw [heq] at h
    cases hh : (handleInner reg w now pool name args).2.2 <;>
      simp [hh, normalizeRes] at h
  · intro e h
    rw [heq, h]
    rfl

/-- Claim C3 witness: a `discover` call for an identity absent from the
registry is converted into the flagged normalized error result. -/
theorem C3_failures_normalized_witness :
    (handleCallTool REGISTRY wPlain 0 [] "discover" (serverIdArgs "nope")).2.2
      = Res.ok (errorResult "Unknown serverId: nope") :=
  (C3_failures_normalized REGISTRY wPlain 0 [] "discover" (serverIdArgs "nope")).2
    "Unknown serverId: nope" rfl

/-- Claim C7: over any established connection, when the downstream
capability-list call succeeds and the resource-list call rejects (or the
method is absent), `discover` returns a successful (unflagged) result
whose payload carries the identity, the tool list and an empty resource
list; when the capability-list call itself rejects, the whole `discover`
operation fails with that error (normalized at the dispatch boundary). -/
theorem C7_discover_resource_degradation (reg : List ServerConfig) (w : World)
    (now : Int) (pool : Pool) (sid : String) (tr : List Act) (pool1 : Pool)
    (conn : Connected)
    (hconn : ensureConnection reg w pool sid now = (tr, pool1, Res.ok conn)) :
    (∀ tools e, (w.ds conn.client).listTools = Res.ok tools →
        (w.ds conn.client).listResources = some (Res.err e) →
        handleCallTool reg w now pool "discover" (serverIdArgs sid)
          = (tr, pool1, Res.ok (discoverResult sid tools (Json.arr []))))
    ∧ (∀ tools, (w.ds conn.client).listTools = Res.ok tools →
        (w.ds conn.client).listResources = none →
        handleCallTool reg w now pool "discover" (serverIdArgs sid)
          = (tr, pool1, Res.ok (discoverResult sid tools (Json.arr []))))
    ∧ (∀ e, (w.ds conn.client).listTools = Res.err e →
        handleCallTool reg w now pool "discover" (serverIdArgs sid)
          = (tr, pool1, Res.ok (errorResult e))) := by
  have hrun : handleCallTool reg w now pool "discover" (serverIdArgs sid)
      = normalizeOutcome (discoverOp reg w now pool (serverIdArgs sid)) := rfl
  refine ⟨?_, ?_, ?_⟩
  · intro tools e htools hres
    rw [hrun]
    simp only [discoverOp, parseDiscover_serverIdArgs, hconn, htools, hres,
      normalizeOutcome, normalizeRes]
  · intro tools htools hres
    rw [hrun]
    simp only [discoverOp, parseDiscover_serverIdArgs, hconn, htools, hres,
      normalizeOutcome, normalizeRes]
  · intro e htools
    rw [hrun]
    simp only [discoverOp, parseDiscover_serverIdArgs, hconn, htools,
      normalizeOutcome, normalizeRes]

/-- Claim C7 witness: the concrete `llm-memory` connection whose
downstream lists one tool and rejects resource listing with
"Method not found". -/
theorem C7_discover_resource_degradation_witness :
    handleCallTool REGISTRY wDiscover 0 [] "discover" (serverIdArgs "llm-memory")
      = ([Act.stdioConnect "node"], [("llm-memory", connDiscover)],
         Res.ok (discoverResult "llm-memory" pingTools (Json.arr []))) :=
  (C7_discover_resource_degradation REGISTRY wDiscover 0 [] "llm-memory"
      [Act.stdioConnect "node"] [("llm-memory", connDiscover)] connDiscover rfl).1
    pingTools "Method not found" rfl rfl

/-- Claim C8: `close` is idempotent at the public interface — when the
identity has no pool entry (in particular after a preceding `close` of the
same identity, whatever that first call found), the call returns the
benign "not connected" informational result, whose error flag is not set,
and the outcome is a normal return, not an error. -/
theorem C8_close_idempotent (reg : List ServerConfig) (w w' : World)
    (now now' : Int) (pool : Pool) (sid : String) :
    (mapGet pool sid = none →
       handleCallTool reg w now pool "close" (serverIdArgs sid)
         = ([], pool, Res.ok (notConnectedResult sid)))
    ∧ handleCallTool reg w' now'
        (handleCallTool reg w now pool "close" (serverIdArgs sid)).2.1
        "close" (serverIdArgs sid)
      = ([], (handleCallTool reg w now pool "close" (serverIdArgs sid)).2.1,
         Res.ok (notConnectedResult sid))
    ∧ (notConnectedResult sid).isError = false := by
  have hrun : ∀ (wx : World) (nx : Int) (p : Pool),
      handleCallTool reg wx nx p "close" (serverIdArgs sid)
        = normalizeOutcome (closeOp wx p (serverIdArgs sid)) := fun _ _ _ => rfl
  refine ⟨?_, ?_, rfl⟩
  · intro h
    rw [hrun, closeOp_absent w pool sid h]
    rfl
  · cases h : mapGet pool sid with
    | none =>
      rw [hrun w now pool, closeOp_absent w pool sid h]
      simp only [normalizeOutcome, normalizeRes]
      rw [hrun w' now' pool, closeOp_absent w' pool sid h]
      rfl
    | some c =>
      rw [hrun w now pool, closeOp_present w pool sid c h]
      simp only [normalizeOutcome, normalizeRes]
      rw [hrun w' now' (mapDelete pool sid),
        closeOp_absent w' (mapDelete pool sid) sid (mapGet_mapDelete pool sid)]
      rfl

/-- Claim C8 witness: closing `llm-memory` twice from a one-entry pool —
the second call returns the benign "not connected" result. -/
theorem C8_close_idempotent_witness :
    handleCallTool REGISTRY wPlain 0
        (handleCallTool REGISTRY wPlain 0 [("llm-memory", connStale)] "close"
          (serverIdArgs "llm-memory")).2.1
        "close" (serverIdArgs "llm-memory")
      = ([], (handleCallTool REGISTRY wPlain 0 [("llm-memory", connStale)] "close"
          (serverIdArgs "llm-memory")).2.1,
         Res.ok (notConnectedResult "llm-memory")) :=
  (C8_close_idempotent REGISTRY wPlain wPlain 0 0 [("llm-memory", connStale)]
    "llm-memory").2.1

/-- Claim C9: the reaper fires on a fixed 30000 ms cadence, and on each
tick a pool entry is evicted — its client's `close()` called (any failure
tolerated: the tick is the same for every `closeFails` oracle `w`), its
child handle signalled with SIGTERM exactly when present, and the entry
removed — exactly when `now` minus its last-used timestamp strictly
exceeds its idle budget; an entry used more recently survives the tick
with its record unchanged. -/
theorem C9_reaper_tick :
    gcIntervalMs = 30000
    ∧ ∀ (w : World) (now : Int) (pool : Pool) (id : String) (c : Connected),
        (pool.map Prod.fst).Nodup → (id, c) ∈ pool →
        (if now - c.lastUsed > c.idleTtlMs then
            mapGet (gcTick w now pool).2 id = none
            ∧ Act.closeClient c.client ∈ (gcTick w now pool).1
            ∧ ∀ ch, c.child = some ch →
                Act.killChild ch "SIGTERM" ∈ (gcTick w now pool).1
          else mapGet (gcTick w now pool).2 id = some c) := by
  refine ⟨rfl, ?_⟩
  intro w now pool id c hnodup hmem
  induction pool with
  | nil => cases hmem
  | cons hd tl ih =>
    obtain ⟨k, hc⟩ := hd
    simp only [List.map_cons, List.nodup_cons] at hnodup
    obtain ⟨hknotin, hnodtl⟩ := hnodup
    rw [gcTick_cons]
    rcases List.mem_cons.mp hmem with heq | hmemtl
    · injection heq with h1 h2
      subst h1
      subst h2
      by_cases hcond : now - c.lastUsed > c.idleTtlMs
      · rw [if_pos hcond, if_pos hcond]
        refine ⟨?_, ?_, ?_⟩
        · exact gcTick_mapGet_none w now tl id
            (mapGet_none_of_not_mem_keys tl id hknotin)
        · exact List.mem_append_left _ (List.mem_cons_self _ _)
        · intro ch hch
          refine List.mem_append_left _ ?_
          simp [evictActs, hch]
      · rw [if_neg hcond, if_neg hcond]
        show (if id = id then some c else mapGet (gcTick w now tl).2 id) = some c
        rw [if_pos rfl]
    · have hidin : id ∈ tl.map Prod.fst := List.mem_map_of_mem Prod.fst hmemtl
      have hkneid : k ≠ id := fun h => hknotin (h ▸ hidin)
      have ihh := ih hnodtl hmemtl
      by_cases hcond : now - c.lastUsed > c.idleTtlMs
      · rw [if_pos hcond] at ihh ⊢
        by_cases hhead : now - hc.lastUsed > hc.idleTtlMs
        · rw [if_pos hhead]
          exact ⟨ihh.1, List.mem_append_right _ ihh.2.1,
            fun ch hch => List.mem_append_right _ (ihh.2.2 ch hch)⟩
        · rw [if_neg hhead]
          refine ⟨?_, ihh.2.1, fun ch hch => ihh.2.2 ch hch⟩
          show (if k = id then some hc else mapGet (gcTick w now tl).2 id) = none
          rw [if_neg hkneid]
          exact ihh.1
      · rw [if_neg hcond] at ihh ⊢
        by_cases hhead : now - hc.lastUsed > hc.idleTtlMs
        · rw [if_pos hhead]
          exact ihh
        · rw [if_neg hhead]
          show (if k = id then some hc else mapGet (gcTick w now tl).2 id) = some c
          rw [if_neg hkneid]
          exact ihh

/-- Claim C9 witness: a tick at time 600000 on a stale entry (idle
600000 ms, budget 300000 ms): it is removed and its client closed. -/
theorem C9_reaper_tick_witness :
    mapGet (gcTick wPlain 600000 [("a", connStale), ("b", connFresh)]).2 "a" = none
    ∧ Act.closeClient connStale.client
        ∈ (gcTick wPlain 600000 [("a", connStale), ("b", connFresh)]).1 := by
  have h := C9_reaper_tick.2 wPlain 600000 [("a", connStale), ("b", connFresh)]
    "a" connStale (by decide) (by decide)
  rw [if_pos (by decide)] at h
  exact ⟨h.1, h.2.1⟩

/-- Claim C10: `connectStdio` always returns a null child handle (the SDK
transport owns the spawned process), `ensureConnection` therefore
preserves the pool-wide absence of child handles (the `ws` path cannot
insert one either, as it never succeeds), and on every eviction path of a
child-less entry the teardown consists of exactly the client `close()`
call — no kill signal is ever issued by the gateway. -/
theorem C10_stdio_child_null :
    (∀ (cfg : ServerConfig) (o : StdioOutcome) (client : Nat) (child : Option Nat),
        (connectStdio cfg o).2 = Res.ok (client, child) → child = none)
    ∧ (∀ (reg : List ServerConfig) (w : World) (pool : Pool) (sid : String) (now : Int),
        allChildNone pool → allChildNone (ensureConnection reg w pool sid now).2.1)
    ∧ (∀ c : Connected, c.child = none → evictActs c = [Act.closeClient c.client])
    ∧ (∀ (w : World) (now : Int) (pool : Pool), allChildNone pool →
        ∀ ch sig, Act.killChild ch sig ∉ (gcTick w now pool).1) :=
  ⟨connectStdio_child_none,
   fun reg w pool sid now hp => ensureConnection_allChildNone reg w pool sid now hp,
   evictActs_childNone,
   fun w now pool hp ch sig => gcTick_no_kill w now pool hp ch sig⟩

/-- Claim C10 witness: a reaper tick over a child-less pool issues no kill
signal. -/
theorem C10_stdio_child_null_witness :
    decide (Act.killChild 9 "SIGTERM" ∈ (gcTick wPlain 600000 [("a", connStale)]).1)
      = false :=
  decide_eq_false
    (C10_stdio_child_null.2.2.2 wPlain 600000 [("a", connStale)]
      (by
        intro id c hmem
        simp only [List.mem_singleton] at hmem
        injection hmem with h1 h2
        subst h2
        rfl)
      9 "SIGTERM")

end Gateway








